import Mathlib

/-!
UMCInteraction: the fixation-grasp state machine of `AMCHand`.

A shallow embedding of `Source/UMCInteraction/Private/MCHand.cpp`.

* Engine floats (`float`, the components of `FVector` and `FQuat`) are read as
  rationals: the code only compares them with `<` against the thresholds
  `5`, `50`, `15`, `120`, subtracts and multiplies them.
* Pointers are nullable references: `Option ActorRef` for an
  `AStaticMeshActor*`, `Option HandRef` for an `AMCHand*`, and a `Bool`
  for the one `ASLRuntimeManager*` (set or null).  Dereferencing a null pointer
  is the result `Except.error Fault.nullDereference`.
* The world holds the two hands, the actors of the level, and the chronological
  list of commands the hands issued to the engine and to the semantic logger.
-/

namespace UMCInteraction

/-! ## Engine value types -/

/-- Engine vector `FVector`. -/
structure FVector where
  X : ℚ
  Y : ℚ
  Z : ℚ
deriving DecidableEq

/-- Component-wise difference, `FVector::operator-`, computed exactly (the engine
rounds each component to a float); only the mimicking offset is computed with it. -/
def FVector.sub (a b : FVector) : FVector :=
  ⟨a.X - b.X, a.Y - b.Y, a.Z - b.Z⟩

/-- Engine quaternion `FQuat`. -/
structure FQuat where
  X : ℚ
  Y : ℚ
  Z : ℚ
  W : ℚ
deriving DecidableEq

/-- Quaternion product, `FQuat::operator*`, computed exactly (the engine rounds
each component to a float); only the mimicking offset is computed with it. -/
def FQuat.mul (a b : FQuat) : FQuat :=
  ⟨a.W * b.X + a.X * b.W + a.Y * b.Z - a.Z * b.Y,
   a.W * b.Y - a.X * b.Z + a.Y * b.W + a.Z * b.X,
   a.W * b.Z + a.X * b.Y - a.Y * b.X + a.Z * b.W,
   a.W * b.W - a.X * b.X - a.Y * b.Y - a.Z * b.Z⟩

/-- The two `AMCHand` actors of the level. -/
inductive HandRef where
  | handA
  | handB
deriving DecidableEq, Repr

/-- Reference to an actor of the level (a non-null `AActor*`). -/
abbrev ActorRef := Nat

/-- Result of dereferencing a null pointer. -/
inductive Fault where
  | nullDereference
deriving DecidableEq, Repr

/-- The three values `CheckObjectGraspableType` returns (`NOT_GRASPABLE`,
`ONE_HAND_GRASPABLE`, `TWO_HANDS_GRASPABLE` of the header). -/
inductive GraspType where
  | NOT_GRASPABLE
  | ONE_HAND_GRASPABLE
  | TWO_HANDS_GRASPABLE
deriving DecidableEq, Repr

/-- Name of an OWL individual, `FOwlIndividualName(Ns, Class, Id)`. -/
structure FOwlIndividualName where
  Ns : String
  Class : String
  Id : String
deriving DecidableEq

/-- Printed name of an individual, `Class_Id` as in the event example of
`StartGraspEvent` (`Bowl3_9w2Y`, `LeftHand_BRmZ`). -/
def FOwlIndividualName.GetName (n : FOwlIndividualName) : String :=
  n.Class ++ "_" ++ n.Id

/-- The event node `StartGraspEvent` builds: the grasping individual and the
three properties that depend on the hand and the object. -/
structure FOwlNode where
  individual : FOwlIndividualName
  taskContext : String
  performedBy : FOwlIndividualName
  actedOn : FOwlIndividualName
deriving DecidableEq

/-- What the code reads and writes on an actor of the level. -/
structure Actor where
  /-- Whether `Cast<AStaticMeshActor>(actor)` is non-null. -/
  isStaticMeshActor : Bool
  /-- Whether `GetStaticMeshComponent()` is non-null. -/
  hasStaticMeshComponent : Bool
  /-- Result of `IsRootComponentMovable()`. -/
  rootMovable : Bool
  /-- Result of `IsSimulatingPhysics()` on the static mesh component. -/
  simulatingPhysics : Bool
  /-- Result of `GetMass()` on the static mesh component. -/
  mass : ℚ
  /-- Result of `GetComponentsBoundingBox().GetSize().Size()`. -/
  boundsSize : ℚ
  /-- The `Class` and `Id` of the actor's `SemLog` tag, when it has one. -/
  semLogTag : Option (String × String)
  /-- The hand the actor is attached to, if any. -/
  attachParent : Option HandRef
  /-- Linear velocity of the static mesh component. -/
  linearVelocity : FVector

/-- Commands issued to the engine and to the semantic log runtime manager. -/
inductive Cmd where
  | SetSimulatePhysics (o : ActorRef) (b : Bool)
  | AttachTo (o : ActorRef) (h : HandRef)
  | DetachFromComponent (o : ActorRef)
  | SetPhysicsLinearVelocity (o : ActorRef) (v : FVector)
  | StartEvent (e : FOwlNode)
  | FinishEvent (e : FOwlNode)
deriving DecidableEq

/-- The members of `AMCHand` the grasp code uses, and the engine state of the
hand actor it reads (`GetActorLocation`, `GetActorQuat`, `GetVelocity`). -/
structure Hand where
  bFixationGraspEnabled : Bool
  bTwoHandsFixationGraspEnabled : Bool
  bMovementMimickingHand : Bool
  bGraspHeld : Bool
  bReadyForTwoHandsGrasp : Bool
  OneHandFixationMaximumMass : ℚ
  OneHandFixationMaximumLength : ℚ
  TwoHandsFixationMaximumMass : ℚ
  TwoHandsFixationMaximumLength : ℚ
  /-- The flag `FixationGraspArea->bGenerateOverlapEvents`. -/
  bGenerateOverlapEvents : Bool
  /-- State set by `SetActorTickEnabled`. -/
  bTickEnabled : Bool
  /-- A `TArray<AStaticMeshActor*>`; the last element is the one `Pop` returns. -/
  OneHandGraspableObjects : List (Option ActorRef)
  TwoHandsGraspableObject : Option ActorRef
  OneHandGraspedObject : Option ActorRef
  TwoHandsGraspedObject : Option ActorRef
  OtherHand : Option HandRef
  MimickingRelativeLocation : FVector
  MimickingRelativeRotation : FQuat
  /-- Whether `SemLogRuntimeManager` is non-null. -/
  SemLogRuntimeManager : Bool
  /-- The member `TSharedPtr<FOwlNode> GraspEvent` (`none` is the invalid pointer). -/
  GraspEvent : Option FOwlNode
  HandIndividual : FOwlIndividualName
  ActorLocation : FVector
  ActorQuat : FQuat
  Velocity : FVector

/-- The level: both hands, the actors, the collaborators, and the commands issued so far. -/
structure World where
  handA : Hand
  handB : Hand
  actors : ActorRef → Actor
  /-- An `ASLRuntimeManager` exists in the level. -/
  hasRuntimeManager : Bool
  /-- Answer of the manager to `StartEvent` and `FinishEvent`. -/
  managerAnswer : Bool
  /-- Strings `FSLUtils::GenerateRandomFString` returns, in order. -/
  randomStrings : List String
  cmds : List Cmd

/-- Read a hand. -/
def World.hand (w : World) : HandRef → Hand
  | .handA => w.handA
  | .handB => w.handB

/-- Write a hand. -/
def World.setHand (w : World) (r : HandRef) (h : Hand) : World :=
  match r with
  | .handA => { w with handA := h }
  | .handB => { w with handB := h }

/-- Write an actor. -/
def World.setActor (w : World) (o : ActorRef) (a : Actor) : World :=
  { w with actors := Function.update w.actors o a }

/-- Append a command to the log. -/
def World.issue (w : World) (c : Cmd) : World :=
  { w with cmds := w.cmds ++ [c] }

/-- The cast `Cast<AStaticMeshActor>(OtherActor)`: null unless the actor is a static mesh actor. -/
def CastStaticMeshActor (w : World) (o : ActorRef) : Option ActorRef :=
  if (w.actors o).isStaticMeshActor then some o else none

/-! ## Engine commands on an actor -/

/-- The call `o->GetStaticMeshComponent()->SetSimulatePhysics(b)`. -/
def SetSimulatePhysics (o : ActorRef) (b : Bool) (w : World) : Except Fault World :=
  if (w.actors o).hasStaticMeshComponent then
    .ok ((w.setActor o { w.actors o with simulatingPhysics := b }).issue (.SetSimulatePhysics o b))
  else .error .nullDereference

/-- The calls `o->AttachToActor(hand, KeepWorld)` and `o->AttachToComponent(hand root, KeepWorld)`. -/
def AttachTo (o : ActorRef) (h : HandRef) (w : World) : World :=
  (w.setActor o { w.actors o with attachParent := some h }).issue (.AttachTo o h)

/-- The call `o->GetStaticMeshComponent()->DetachFromComponent(KeepWorld)`. -/
def DetachFromComponent (o : ActorRef) (w : World) : Except Fault World :=
  if (w.actors o).hasStaticMeshComponent then
    .ok ((w.setActor o { w.actors o with attachParent := none }).issue (.DetachFromComponent o))
  else .error .nullDereference

/-- The call `o->GetStaticMeshComponent()->SetPhysicsLinearVelocity(v)`; the
code makes it right after it enabled physics on `o`. -/
def SetPhysicsLinearVelocity (o : ActorRef) (v : FVector) (w : World) : Except Fault World :=
  if (w.actors o).hasStaticMeshComponent then
    .ok ((w.setActor o { w.actors o with linearVelocity := v }).issue (.SetPhysicsLinearVelocity o v))
  else .error .nullDereference

/-! ## `AMCHand` -/

/-- The constructor `AMCHand::AMCHand()`; the engine state of the new actor
(name, pose, velocity) is given.  A new actor ticks and its new sphere component
generates overlap events, the defaults of the engine. -/
def AMCHand (name : FOwlIndividualName) (loc : FVector) (rot : FQuat) (vel : FVector) : Hand where
  bFixationGraspEnabled := true
  bTwoHandsFixationGraspEnabled := true
  bMovementMimickingHand := false
  bGraspHeld := false
  bReadyForTwoHandsGrasp := false
  OneHandFixationMaximumMass := 5
  OneHandFixationMaximumLength := 50
  TwoHandsFixationMaximumMass := 15
  TwoHandsFixationMaximumLength := 120
  bGenerateOverlapEvents := true
  bTickEnabled := true
  OneHandGraspableObjects := []
  TwoHandsGraspableObject := none
  OneHandGraspedObject := none
  TwoHandsGraspedObject := none
  OtherHand := none
  MimickingRelativeLocation := ⟨0, 0, 0⟩
  MimickingRelativeRotation := ⟨0, 0, 0, 1⟩
  SemLogRuntimeManager := false
  GraspEvent := none
  HandIndividual := name
  ActorLocation := loc
  ActorQuat := rot
  Velocity := vel

/-- Embedding of `AMCHand::BeginPlay`: take the runtime manager of the level when there is
one, disable tick. -/
def BeginPlay (self : HandRef) (w : World) : World :=
  w.setHand self { w.hand self with
    SemLogRuntimeManager := w.hasRuntimeManager
    bTickEnabled := false }

/-- Embedding of `AMCHand::SetOtherHand`: store the pointer, then log the other hand's name
(which dereferences it). -/
def SetOtherHand (self : HandRef) (InOtherHand : Option HandRef) (w : World) : Except Fault World :=
  let w1 := w.setHand self { w.hand self with OtherHand := InOtherHand }
  match InOtherHand with
  | some _ => .ok w1
  | none => .error .nullDereference

/-- Embedding of `AMCHand::CheckObjectGraspableType`. -/
def CheckObjectGraspableType (self : Hand) (InActor : Actor) : GraspType :=
  if InActor.isStaticMeshActor then
    if InActor.hasStaticMeshComponent then
      if InActor.rootMovable && InActor.simulatingPhysics
          && decide (InActor.mass < self.OneHandFixationMaximumMass)
          && decide (InActor.boundsSize < self.OneHandFixationMaximumLength) then
        .ONE_HAND_GRASPABLE
      else if decide (InActor.mass < self.TwoHandsFixationMaximumMass)
          && decide (InActor.boundsSize < self.TwoHandsFixationMaximumLength) then
        .TWO_HANDS_GRASPABLE
      else .NOT_GRASPABLE
    else .NOT_GRASPABLE
  else .NOT_GRASPABLE

/-- Embedding of `AMCHand::OnFixationGraspAreaBeginOverlap`. -/
def OnFixationGraspAreaBeginOverlap (self : HandRef) (OtherActor : ActorRef) (w : World) : World :=
  let h := w.hand self
  match CheckObjectGraspableType h (w.actors OtherActor) with
  | .ONE_HAND_GRASPABLE =>
    w.setHand self { h with
      OneHandGraspableObjects := h.OneHandGraspableObjects ++ [CastStaticMeshActor w OtherActor] }
  | .TWO_HANDS_GRASPABLE =>
    w.setHand self { h with TwoHandsGraspableObject := CastStaticMeshActor w OtherActor }
  | .NOT_GRASPABLE => w

/-- Embedding of `AMCHand::OnFixationGraspAreaEndOverlap`. -/
def OnFixationGraspAreaEndOverlap (self : HandRef) (OtherActor : ActorRef) (w : World) : World :=
  let h := w.hand self
  let h1 := { h with
    OneHandGraspableObjects :=
      h.OneHandGraspableObjects.filter (fun p => p != CastStaticMeshActor w OtherActor) }
  if h1.TwoHandsGraspableObject.isSome then
    w.setHand self { h1 with bReadyForTwoHandsGrasp := false, TwoHandsGraspableObject := none }
  else
    w.setHand self h1

/-- Embedding of `AMCHand::StartGraspEvent`.  The node is bound to a local variable named
`GraspEvent`; the member of that name is not assigned. -/
def StartGraspEvent (self : HandRef) (OtherActor : ActorRef) (w : World) :
    Except Fault (Bool × World) :=
  match (w.actors OtherActor).semLogTag with
  | some (OtherActorClass, OtherActorId) =>
    let OtherIndividual : FOwlIndividualName := ⟨"log", OtherActorClass, OtherActorId⟩
    let GraspingIndividual : FOwlIndividualName :=
      ⟨"log", "GraspingSomething", w.randomStrings.headD ""⟩
    let w1 := { w with randomStrings := w.randomStrings.tail }
    let HandIndividual := (w1.hand self).HandIndividual
    let GraspEvent : FOwlNode :=
      { individual := GraspingIndividual
        taskContext := "Grasp-" ++ HandIndividual.GetName ++ "-" ++ OtherIndividual.GetName
        performedBy := HandIndividual
        actedOn := OtherIndividual }
    if (w1.hand self).SemLogRuntimeManager then
      .ok (w1.managerAnswer, w1.issue (.StartEvent GraspEvent))
    else .error .nullDereference
  | none => .ok (false, w)

/-- Embedding of `AMCHand::FinishGraspEvent`. -/
def FinishGraspEvent (self : HandRef) (_OtherActor : ActorRef) (w : World) :
    Except Fault (Bool × World) :=
  match (w.hand self).GraspEvent with
  | some ev =>
    if (w.hand self).SemLogRuntimeManager then
      .ok (w.managerAnswer, w.issue (.FinishEvent ev))
    else .error .nullDereference
  | none => .ok (false, w)

/-- Embedding of `AMCHand::TryOneHandFixationGrasp`. -/
def TryOneHandFixationGrasp (self : HandRef) (w : World) : Except Fault (Bool × World) :=
  let h := w.hand self
  if h.OneHandGraspedObject.isNone && decide (h.OneHandGraspableObjects.length > 0) then
    let popped : Option ActorRef := h.OneHandGraspableObjects.getLast?.join
    let w1 := w.setHand self { h with
      OneHandGraspedObject := popped
      OneHandGraspableObjects := h.OneHandGraspableObjects.dropLast }
    match popped with
    | none => .error .nullDereference
    | some o => do
      let w2 ← SetSimulatePhysics o false w1
      let w3 := AttachTo o self w2
      let w4 := w3.setHand self { w3.hand self with bGenerateOverlapEvents := false }
      let (_, w5) ← StartGraspEvent self o w4
      .ok (true, w5)
  else .ok (false, w)

/-- Embedding of `AMCHand::TwoHandsFixationGraspFromOther`. -/
def TwoHandsFixationGraspFromOther (self : HandRef) (w : World) : Except Fault World :=
  let h := w.hand self
  let h1 := { h with
    TwoHandsGraspableObject := none
    bTickEnabled := true
    bMovementMimickingHand := true }
  let w1 := w.setHand self h1
  match h1.OtherHand with
  | none => .error .nullDereference
  | some other =>
    let o := w1.hand other
    .ok (w1.setHand self { h1 with
      MimickingRelativeLocation := o.ActorLocation.sub h1.ActorLocation
      MimickingRelativeRotation := o.ActorQuat.mul h1.ActorQuat
      bGenerateOverlapEvents := false })

/-- Embedding of `AMCHand::TryTwoHandsFixationGrasp`. -/
def TryTwoHandsFixationGrasp (self : HandRef) (w : World) : Except Fault (Bool × World) :=
  let h := w.hand self
  let h1 :=
    if h.OtherHand.isSome && h.TwoHandsGraspableObject.isSome then
      { h with bReadyForTwoHandsGrasp := true }
    else h
  let w1 := w.setHand self h1
  if h1.bReadyForTwoHandsGrasp then
    match h1.OtherHand with
    | none => .error .nullDereference
    | some other =>
      if (w1.hand other).bReadyForTwoHandsGrasp then
        match h1.TwoHandsGraspableObject with
        | some o =>
          if (w1.hand other).TwoHandsGraspableObject.isSome then do
            let w2 := w1.setHand self { h1 with
              TwoHandsGraspedObject := some o
              TwoHandsGraspableObject := none }
            let w3 ← SetSimulatePhysics o false w2
            let w4 := AttachTo o self w3
            let w5 := w4.setHand self { w4.hand self with bGenerateOverlapEvents := false }
            let w6 ← TwoHandsFixationGraspFromOther other w5
            .ok (true, w6)
          else .ok (false, w1)
        | none => .ok (false, w1)
      else .ok (false, w1)
  else .ok (false, w1)

/-- Embedding of `AMCHand::DetachTwoHandFixationGraspFromOther`. -/
def DetachTwoHandFixationGraspFromOther (self : HandRef) (w : World) :
    Except Fault (Bool × World) :=
  let w1 := w.setHand self { w.hand self with bGenerateOverlapEvents := true }
  match (w1.hand self).TwoHandsGraspedObject with
  | some o => do
    let w2 ← DetachFromComponent o w1
    let w3 ← SetSimulatePhysics o true w2
    let w4 ← SetPhysicsLinearVelocity o (w3.hand self).Velocity w3
    .ok (true, w4.setHand self { w4.hand self with TwoHandsGraspedObject := none })
  | none =>
    if (w1.hand self).bMovementMimickingHand then
      .ok (true, w1.setHand self { w1.hand self with
        bTickEnabled := false
        bMovementMimickingHand := false })
    else .ok (false, w1)

/-- Embedding of `AMCHand::DetachFixationGrasp`. -/
def DetachFixationGrasp (self : HandRef) (w : World) : Except Fault (Bool × World) :=
  let w1 := w.setHand self { w.hand self with
    bReadyForTwoHandsGrasp := false
    bGenerateOverlapEvents := true
    bGraspHeld := false }
  match (w1.hand self).OneHandGraspedObject with
  | some o => do
    let (_, w2) ← FinishGraspEvent self o w1
    let w3 ← DetachFromComponent o w2
    let w4 ← SetSimulatePhysics o true w3
    let w5 ← SetPhysicsLinearVelocity o (w4.hand self).Velocity w4
    .ok (true, w5.setHand self { w5.hand self with OneHandGraspedObject := none })
  | none =>
    match (w1.hand self).TwoHandsGraspedObject, (w1.hand self).OtherHand with
    | some o, some other => do
      let w2 ← DetachFromComponent o w1
      let w3 ← SetSimulatePhysics o true w2
      let w4 ← SetPhysicsLinearVelocity o (w3.hand self).Velocity w3
      let w5 := w4.setHand self { w4.hand self with TwoHandsGraspedObject := none }
      let (_, w6) ← DetachTwoHandFixationGraspFromOther other w5
      .ok (true, w6)
    | _, _ =>
      match (w1.hand self).bMovementMimickingHand, (w1.hand self).OtherHand with
      | true, some other => do
        let w2 := w1.setHand self { w1.hand self with
          bTickEnabled := false
          bMovementMimickingHand := false }
        let (_, w3) ← DetachTwoHandFixationGraspFromOther other w2
        .ok (true, w3)
      | _, _ => .ok (false, w1)

/-! ## Traces of calls -/

/-- The calls the engine and the input layer make on a hand. -/
inductive Action where
  | enter (h : HandRef) (o : ActorRef)
  | exit (h : HandRef) (o : ActorRef)
  | tryOneHand (h : HandRef)
  | tryTwoHands (h : HandRef)
  | detach (h : HandRef)
deriving DecidableEq, Repr

/-- One call; the boolean is the value the call returns (`true` for the two
`void` overlap handlers).  The handlers do not test `bGenerateOverlapEvents`
themselves: it is the engine that stops delivering notifications while the flag
is off. -/
def step (a : Action) (w : World) : Except Fault (Bool × World) :=
  match a with
  | .enter h o => .ok (true, OnFixationGraspAreaBeginOverlap h o w)
  | .exit h o => .ok (true, OnFixationGraspAreaEndOverlap h o w)
  | .tryOneHand h => TryOneHandFixationGrasp h w
  | .tryTwoHands h => TryTwoHandsFixationGrasp h w
  | .detach h => DetachFixationGrasp h w

/-- A sequence of calls, in order. -/
def run : List Action → World → Except Fault World
  | [], w => .ok w
  | a :: rest, w => do
    let (_, w1) ← step a w
    run rest w1

/-- The level after both hands are constructed, have begun play, and were
paired with `SetOtherHand`. -/
def pairedLevel (actors : ActorRef → Actor) (hasRuntimeManager managerAnswer : Bool)
    (randomStrings : List String) (A B : Hand) : Except Fault World := do
  let w0 : World :=
    { handA := A, handB := B, actors := actors, hasRuntimeManager := hasRuntimeManager,
      managerAnswer := managerAnswer, randomStrings := randomStrings, cmds := [] }
  let w1 := BeginPlay .handB (BeginPlay .handA w0)
  let w2 ← SetOtherHand .handA (some .handB) w1
  SetOtherHand .handB (some .handA) w2

/-- States reached from `w0` by a sequence of calls, on either hand, that all return. -/
inductive Reachable (w0 : World) : World → Prop where
  | init : Reachable w0 w0
  | next {w w1 : World} (a : Action) (r : Bool) :
      Reachable w0 w → step a w = .ok (r, w1) → Reachable w0 w1

/-! ## A concrete level -/

/-- A static mesh actor at rest: movable, simulating physics, untagged, unattached. -/
def looseActor (mass boundsSize : ℚ) : Actor where
  isStaticMeshActor := true
  hasStaticMeshComponent := true
  rootMovable := true
  simulatingPhysics := true
  mass := mass
  boundsSize := boundsSize
  semLogTag := none
  attachParent := none
  linearVelocity := ⟨0, 0, 0⟩

/-- Actors of the sample level: `1` a mug (mass 3, size 20), `2` and `3` two
crates (mass 10, size 80), `4` a shelf that is neither movable nor simulating
physics (mass 3, size 20), every other reference an actor that is not a static
mesh actor. -/
def sampleActors (o : ActorRef) : Actor :=
  match o with
  | 1 => looseActor 3 20
  | 2 => looseActor 10 80
  | 3 => looseActor 10 80
  | 4 => { looseActor 3 20 with rootMovable := false, simulatingPhysics := false }
  | _ => { looseActor 0 0 with isStaticMeshActor := false, hasStaticMeshComponent := false }

/-- Left hand of the sample level, moving with velocity `(1, 2, 3)`. -/
def sampleHandA : Hand :=
  AMCHand ⟨"log", "LeftHand", "BRmZ"⟩ ⟨0, 0, 0⟩ ⟨0, 0, 0, 1⟩ ⟨1, 2, 3⟩

/-- Right hand of the sample level, moving with velocity `(4, 5, 6)`. -/
def sampleHandB : Hand :=
  AMCHand ⟨"log", "RightHand", "k3Qp"⟩ ⟨0, 40, 0⟩ ⟨0, 0, 0, 1⟩ ⟨4, 5, 6⟩

/-- The sample level: the two paired hands and the sample actors, no runtime manager. -/
def sampleLevel : Except Fault World :=
  pairedLevel sampleActors false false [] sampleHandA sampleHandB

/-- The sample level before the hands are paired. -/
def sampleUnpaired : World :=
  { handA := sampleHandA, handB := sampleHandB, actors := sampleActors,
    hasRuntimeManager := false, managerAnswer := false, randomStrings := [], cmds := [] }

/-- The world a computation ends in (the unpaired sample level when it faulted). -/
def endWorld (e : Except Fault World) : World :=
  match e with
  | .ok w => w
  | .error _ => sampleUnpaired

/-- The sample level after both hands have begun play, with `SetOtherHand`
never called. -/
def sampleSolo : World :=
  BeginPlay .handB (BeginPlay .handA sampleUnpaired)

/-- Calls on hand A alone: the mug and a crate enter, an attempt at a two-hand
grasp, a one-hand grasp, another attempt at a two-hand grasp, a detach, the
crate leaves and another crate enters. -/
def soloTrace : List Action :=
  [.enter .handA 1, .enter .handA 2, .tryTwoHands .handA, .tryOneHand .handA,
    .tryTwoHands .handA, .detach .handA, .exit .handA 2, .enter .handA 3]

/-- Actors of the tagged level: `5` a bowl (mass 3, size 20) with the `SemLog`
tag of class `Bowl3` and id `9w2Y`, every other reference as in the sample level
(so the mug `1` has no tag). -/
def taggedActors (o : ActorRef) : Actor :=
  match o with
  | 5 => { looseActor 3 20 with semLogTag := some ("Bowl3", "9w2Y") }
  | n => sampleActors n

/-- The tagged level with the two paired hands and no runtime manager. -/
def unloggedLevel : Except Fault World :=
  pairedLevel taggedActors false false [] sampleHandA sampleHandB

/-- The tagged level with the two paired hands and a runtime manager that
accepts events; the next random string is `S1dz`. -/
def loggedLevel : Except Fault World :=
  pairedLevel taggedActors true true ["S1dz"] sampleHandA sampleHandB

deriving instance DecidableEq for Except

/-! ## Reading and writing the world -/

@[simp] theorem hand_setHand_same (w : World) (r : HandRef) (h : Hand) :
    (w.setHand r h).hand r = h := by
  cases r <;> rfl

theorem hand_setHand_ne (w : World) (r s : HandRef) (h : Hand) (hne : r ≠ s) :
    (w.setHand r h).hand s = w.hand s := by
  cases r <;> cases s <;> first | rfl | exact absurd rfl hne

@[simp] theorem actors_setHand (w : World) (r : HandRef) (h : Hand) :
    (w.setHand r h).actors = w.actors := by
  cases r <;> rfl

@[simp] theorem cmds_setHand (w : World) (r : HandRef) (h : Hand) :
    (w.setHand r h).cmds = w.cmds := by
  cases r <;> rfl

@[simp] theorem hand_setActor (w : World) (o : ActorRef) (a : Actor) (r : HandRef) :
    (w.setActor o a).hand r = w.hand r := by
  cases r <;> rfl

@[simp] theorem hand_issue (w : World) (c : Cmd) (r : HandRef) :
    (w.issue c).hand r = w.hand r := by
  cases r <;> rfl

@[simp] theorem actors_issue (w : World) (c : Cmd) : (w.issue c).actors = w.actors := rfl

@[simp] theorem cmds_issue (w : World) (c : Cmd) : (w.issue c).cmds = w.cmds ++ [c] := rfl

@[simp] theorem actors_setActor_same (w : World) (o : ActorRef) (a : Actor) :
    (w.setActor o a).actors o = a := by
  simp [World.setActor]

@[simp] theorem cmds_setActor (w : World) (o : ActorRef) (a : Actor) :
    (w.setActor o a).cmds = w.cmds := rfl

/-! ## Grasp exclusivity (C1) -/

/-- C1, evaluated on the code where it fails: from the two paired hands in their
constructed state, with every overlap notification delivered before any grasp,
the mug enters hand A, the crate enters both hands, both hands call
`TryTwoHandsFixationGrasp`, and then hand A calls `TryOneHandFixationGrasp`.
The last call succeeds although hand A already takes part in the two-hand
grasp: hand A ends with a one-hand grasped object while it is the
movement-mimicking hand (hand B asked last) or while it also has a two-hand
grasped object (hand A asked last). -/
theorem C1_one_hand_grasp_during_two_hand_grasp :
    (sampleLevel >>= run [.enter .handA 1, .enter .handA 2, .enter .handB 2,
        .tryTwoHands .handA, .tryTwoHands .handB, .tryOneHand .handA]).map
      (fun w => ((w.hand .handA).OneHandGraspedObject, (w.hand .handA).TwoHandsGraspedObject,
        (w.hand .handA).bMovementMimickingHand))
      = .ok (some 1, none, true)
    ∧ (sampleLevel >>= run [.enter .handA 1, .enter .handA 2, .enter .handB 2,
        .tryTwoHands .handB, .tryTwoHands .handA, .tryOneHand .handA]).map
      (fun w => ((w.hand .handA).OneHandGraspedObject, (w.hand .handA).TwoHandsGraspedObject,
        (w.hand .handA).bMovementMimickingHand))
      = .ok (some 1, some 2, false) := by
  decide

/-! ## Two-hand completion with different candidates (C2) -/

/-- C2, evaluated on the code where it fails: hand A touches crate `2`, hand B
touches crate `3`, hand A has asked for a two-hand grasp.  When hand B asks,
`TryTwoHandsFixationGrasp` tests that both candidates are set, not that they are
the same actor: it returns `true`, attaches crate `3` to hand B and makes hand A
the movement-mimicking hand. -/
theorem C2_two_hand_grasp_with_different_candidates :
    (sampleLevel >>= run [.enter .handA 2, .enter .handB 3, .tryTwoHands .handA]).map
      (fun w => ((w.hand .handA).TwoHandsGraspableObject, (w.hand .handB).TwoHandsGraspableObject,
        (w.hand .handA).bReadyForTwoHandsGrasp, (w.hand .handA).bMovementMimickingHand))
      = .ok (some 2, some 3, true, false)
    ∧ (sampleLevel >>= run [.enter .handA 2, .enter .handB 3, .tryTwoHands .handA]
        >>= TryTwoHandsFixationGrasp .handB).map
      (fun r => (r.1, (r.2.hand .handB).TwoHandsGraspedObject, (r.2.actors 3).attachParent,
        (r.2.actors 3).simulatingPhysics, (r.2.hand .handA).bMovementMimickingHand))
      = .ok (true, some 3, some .handB, false, true) := by
  decide

/-! ## Classification (C3, C4) -/

/-- C3, evaluated on the code where it fails: the movable and simulating tests
guard only the one-hand branch of `CheckObjectGraspableType`.  A static mesh
actor of mass 3 and size 20 that is movable but not simulating physics, one that
is neither movable nor simulating physics, and one that is not movable, all fall
through to the two-hand branch and are classified `TWO_HANDS_GRASPABLE`, not
`NOT_GRASPABLE`. -/
theorem C3_immovable_actor_is_two_hands_graspable :
    CheckObjectGraspableType sampleHandA { looseActor 3 20 with simulatingPhysics := false }
      = .TWO_HANDS_GRASPABLE
    ∧ CheckObjectGraspableType sampleHandA (sampleActors 4) = .TWO_HANDS_GRASPABLE
    ∧ ((sampleActors 4).rootMovable, (sampleActors 4).simulatingPhysics,
        (sampleActors 4).mass, (sampleActors 4).boundsSize) = (false, false, 3, 20)
    ∧ CheckObjectGraspableType sampleHandA { looseActor 3 20 with rootMovable := false }
      = .TWO_HANDS_GRASPABLE := by
  decide

/-- C4: for a hand with the default thresholds (one-hand 5 / 50, two-hand
15 / 120), an actor whose mass is at least the two-hand maximum mass or whose
bounding diagonal is at least the two-hand maximum length is classified
`NOT_GRASPABLE`, whatever its other properties. -/
theorem C4_heavy_or_large_not_graspable (h : Hand) (a : Actor)
    (hm1 : h.OneHandFixationMaximumMass = 5) (hl1 : h.OneHandFixationMaximumLength = 50)
    (hm2 : h.TwoHandsFixationMaximumMass = 15) (hl2 : h.TwoHandsFixationMaximumLength = 120)
    (hbig : h.TwoHandsFixationMaximumMass ≤ a.mass ∨ h.TwoHandsFixationMaximumLength ≤ a.boundsSize) :
    CheckObjectGraspableType h a = .NOT_GRASPABLE := by
  rw [hm2, hl2] at hbig
  rcases hbig with hb | hb
  · have hA : ¬ a.mass < 5 := by linarith
    have hC : ¬ a.mass < 15 := by linarith
    simp [CheckObjectGraspableType, hm1, hl1, hm2, hl2, hA, hC]
  · have hB : ¬ a.boundsSize < 50 := by linarith
    have hD : ¬ a.boundsSize < 120 := by linarith
    simp [CheckObjectGraspableType, hm1, hl1, hm2, hl2, hB, hD]

/-- C4 at the constructed hand, an actor of mass exactly 15 and an actor of
size exactly 120. -/
theorem C4_heavy_or_large_not_graspable_witness :
    CheckObjectGraspableType sampleHandA (looseActor 15 20) = .NOT_GRASPABLE
    ∧ CheckObjectGraspableType sampleHandA (looseActor 3 120) = .NOT_GRASPABLE :=
  ⟨C4_heavy_or_large_not_graspable sampleHandA (looseActor 15 20) rfl rfl rfl rfl
      (Or.inl (by decide)),
   C4_heavy_or_large_not_graspable sampleHandA (looseActor 3 120) rfl rfl rfl rfl
      (Or.inr (by decide))⟩

/-! ## Detach (C5, C6) -/

/-- C5, evaluated on the code where it fails: in the state the trace of C1
reaches (hand A has the mug as one-hand grasped object and is the
movement-mimicking hand of the crate attached to hand B), the first
`DetachFixationGrasp` of hand A returns `true`, releases the mug and leaves hand
A mimicking; the second call, right after, returns `true` again, stops the
mimicking and has hand B release the crate: it issues a detach, a
physics-enable and a set-velocity command. -/
theorem C5_second_detach_releases_again :
    (sampleLevel >>= run [.enter .handA 1, .enter .handA 2, .enter .handB 2,
        .tryTwoHands .handA, .tryTwoHands .handB, .tryOneHand .handA]
        >>= DetachFixationGrasp .handA).map
      (fun r => (r.1, (r.2.hand .handA).OneHandGraspedObject,
        (r.2.hand .handA).bMovementMimickingHand, (r.2.hand .handB).TwoHandsGraspedObject,
        r.2.cmds.drop 4))
      = .ok (true, none, true, some 2,
          [.DetachFromComponent 1, .SetSimulatePhysics 1 true,
           .SetPhysicsLinearVelocity 1 ⟨1, 2, 3⟩])
    ∧ (sampleLevel >>= run [.enter .handA 1, .enter .handA 2, .enter .handB 2,
        .tryTwoHands .handA, .tryTwoHands .handB, .tryOneHand .handA, .detach .handA]
        >>= DetachFixationGrasp .handA).map
      (fun r => (r.1, (r.2.hand .handA).OneHandGraspedObject,
        (r.2.hand .handA).bMovementMimickingHand, (r.2.hand .handB).TwoHandsGraspedObject,
        r.2.cmds.drop 7))
      = .ok (true, none, false, none,
          [.DetachFromComponent 2, .SetSimulatePhysics 2 true,
           .SetPhysicsLinearVelocity 2 ⟨4, 5, 6⟩]) :=
  ⟨rfl, rfl⟩

/-- Release of a one-hand grasp, in every state: when hand `H` has `o` as its
one-hand grasped object and moves with velocity `v`, `DetachFixationGrasp`
returns `true`; afterwards the one-hand grasped object of `H` is cleared, its
two-hand grasped object and its mimicking flag are as before, `o` is detached,
simulates physics again, and its linear velocity is `v`.  The held actor has its
static mesh component, and an open grasp event, if any, has a runtime manager to
be finished on. -/
theorem one_hand_release_imparts_velocity (w : World) (H : HandRef) (o : ActorRef)
    (v : FVector)
    (hheld : (w.hand H).OneHandGraspedObject = some o)
    (hvel : (w.hand H).Velocity = v)
    (hcomp : (w.actors o).hasStaticMeshComponent = true)
    (hev : (w.hand H).GraspEvent = none ∨ (w.hand H).SemLogRuntimeManager = true) :
    ∃ w1, DetachFixationGrasp H w = .ok (true, w1) ∧
      (w1.hand H).OneHandGraspedObject = none ∧
      (w1.hand H).TwoHandsGraspedObject = (w.hand H).TwoHandsGraspedObject ∧
      (w1.hand H).bMovementMimickingHand = (w.hand H).bMovementMimickingHand ∧
      (w1.actors o).attachParent = none ∧
      (w1.actors o).simulatingPhysics = true ∧
      (w1.actors o).linearVelocity = v := by
  rcases hev with hev | hev
  · simp [DetachFixationGrasp, FinishGraspEvent, DetachFromComponent, SetSimulatePhysics,
      SetPhysicsLinearVelocity, hheld, hvel, hcomp, hev, bind, Except.bind]
  · cases hg : (w.hand H).GraspEvent <;>
    simp [DetachFixationGrasp, FinishGraspEvent, DetachFromComponent, SetSimulatePhysics,
      SetPhysicsLinearVelocity, hheld, hvel, hcomp, hev, hg, bind, Except.bind]

/-- The release scenario of the specification: the mug (movable, simulating,
mass 3, size 20) is classified `ONE_HAND_GRASPABLE`, `TryOneHandFixationGrasp`
succeeds on it and attaches it with physics off, and the detach that follows
releases it with the hand's velocity `(1, 2, 3)` and leaves the hand empty. -/
theorem one_hand_release_scenario :
    CheckObjectGraspableType sampleHandA (sampleActors 1) = .ONE_HAND_GRASPABLE
    ∧ (sampleLevel >>= run [.enter .handA 1] >>= TryOneHandFixationGrasp .handA).map
        (fun r => (r.1, (r.2.hand .handA).OneHandGraspedObject, (r.2.actors 1).attachParent,
          (r.2.actors 1).simulatingPhysics))
        = .ok (true, some 1, some .handA, false)
    ∧ ∃ w1, DetachFixationGrasp .handA
          (endWorld (sampleLevel >>= run [.enter .handA 1, .tryOneHand .handA]))
          = .ok (true, w1) ∧
        (w1.hand .handA).OneHandGraspedObject = none ∧
        (w1.hand .handA).TwoHandsGraspedObject = none ∧
        (w1.hand .handA).bMovementMimickingHand = false ∧
        (w1.actors 1).attachParent = none ∧
        (w1.actors 1).simulatingPhysics = true ∧
        (w1.actors 1).linearVelocity = ⟨1, 2, 3⟩ :=
  ⟨by decide, by decide,
   one_hand_release_imparts_velocity
     (endWorld (sampleLevel >>= run [.enter .handA 1, .tryOneHand .handA])) .handA 1 ⟨1, 2, 3⟩
     (by decide) (by decide) (by decide) (Or.inl (by decide))⟩

/-- C6, evaluated on the code where it fails: in the state the second trace of
C1 reaches, hand A holds the mug in a one-hand grasp, moves with velocity
`(1, 2, 3)`, and also has the crate as its two-hand grasped object.
`DetachFixationGrasp` returns `true` and releases the mug, detached, simulating
physics and with velocity `(1, 2, 3)`, but it returns from the one-hand branch
before the two-hand test: afterwards hand A still holds the crate, attached to
it with physics off. -/
theorem C6_one_hand_release_keeps_two_hand_object :
    (sampleLevel >>= run [.enter .handA 1, .enter .handA 2, .enter .handB 2,
        .tryTwoHands .handB, .tryTwoHands .handA, .tryOneHand .handA]).map
      (fun w => ((w.hand .handA).OneHandGraspedObject, (w.hand .handA).TwoHandsGraspedObject,
        (w.hand .handA).Velocity))
      = .ok (some 1, some 2, ⟨1, 2, 3⟩)
    ∧ (sampleLevel >>= run [.enter .handA 1, .enter .handA 2, .enter .handB 2,
        .tryTwoHands .handB, .tryTwoHands .handA, .tryOneHand .handA]
        >>= DetachFixationGrasp .handA).map
      (fun r => (r.1, (r.2.hand .handA).OneHandGraspedObject,
        (r.2.actors 1).attachParent, (r.2.actors 1).simulatingPhysics,
        (r.2.actors 1).linearVelocity,
        (r.2.hand .handA).TwoHandsGraspedObject, (r.2.actors 2).attachParent,
        (r.2.actors 2).simulatingPhysics))
      = .ok (true, none, none, true, ⟨1, 2, 3⟩, some 2, some .handA, false) :=
  ⟨rfl, rfl⟩

/-! ## Two-hand grasp (C7) -/

/-- C7: two paired hands `H` and `P` that hold nothing, do not mimic, and of
which `P` has not asked for a two-hand grasp yet, have the same actor `o`,
classified `TWO_HANDS_GRASPABLE`, as their two-hand candidate.  The first
`TryTwoHandsFixationGrasp`, on `H`, returns `false`; the second, on `P`, returns
`true`.  Afterwards `P` alone has `o` as its two-hand grasped object, `H` is the
movement-mimicking hand and holds nothing, `o` is attached to `P` with physics
off, and overlap generation is off on the grasp areas of both hands. -/
theorem C7_two_hands_complete_grasp (w : World) (H P : HandRef) (o : ActorRef)
    (hne : H ≠ P)
    (hHP : (w.hand H).OtherHand = some P) (hPH : (w.hand P).OtherHand = some H)
    (hH1 : (w.hand H).OneHandGraspedObject = none) (hH2 : (w.hand H).TwoHandsGraspedObject = none)
    (hHm : (w.hand H).bMovementMimickingHand = false)
    (hP1 : (w.hand P).OneHandGraspedObject = none) (hP2 : (w.hand P).TwoHandsGraspedObject = none)
    (hPm : (w.hand P).bMovementMimickingHand = false)
    (hPr : (w.hand P).bReadyForTwoHandsGrasp = false)
    (hcH : (w.hand H).TwoHandsGraspableObject = some o)
    (hcP : (w.hand P).TwoHandsGraspableObject = some o)
    (hcls : CheckObjectGraspableType (w.hand H) (w.actors o) = .TWO_HANDS_GRASPABLE) :
    ∃ w1 w2, TryTwoHandsFixationGrasp H w = .ok (false, w1) ∧
      TryTwoHandsFixationGrasp P w1 = .ok (true, w2) ∧
      (w2.hand P).TwoHandsGraspedObject = some o ∧
      (w2.hand P).OneHandGraspedObject = none ∧
      (w2.hand P).bMovementMimickingHand = false ∧
      (w2.hand H).TwoHandsGraspedObject = none ∧
      (w2.hand H).OneHandGraspedObject = none ∧
      (w2.hand H).bMovementMimickingHand = true ∧
      (w2.actors o).attachParent = some P ∧
      (w2.actors o).simulatingPhysics = false ∧
      (w2.hand H).bGenerateOverlapEvents = false ∧
      (w2.hand P).bGenerateOverlapEvents = false := by
  have hcomp : (w.actors o).hasStaticMeshComponent = true := by
    by_contra hc
    simp [CheckObjectGraspableType, hc] at hcls
  have hPH' : P ≠ H := fun e => hne e.symm
  simp [TryTwoHandsFixationGrasp, TwoHandsFixationGraspFromOther, SetSimulatePhysics, AttachTo,
    hand_setHand_ne _ _ _ _ hne, hand_setHand_ne _ _ _ _ hPH',
    hHP, hPH, hH1, hH2, hHm, hP1, hP2, hPm, hPr, hcH, hcP, hcomp, bind, Except.bind]

/-- C7 on the scenario of the specification, in both orders: the crate (mass
10, size 80) is classified `TWO_HANDS_GRASPABLE` and has entered the grasp area
of both hands in their constructed state. -/
theorem C7_two_hands_complete_grasp_witness :
    (sampleActors 2).mass = 10 ∧ (sampleActors 2).boundsSize = 80
    ∧ (∃ w1 w2,
      TryTwoHandsFixationGrasp .handA
          (endWorld (sampleLevel >>= run [.enter .handA 2, .enter .handB 2])) = .ok (false, w1) ∧
      TryTwoHandsFixationGrasp .handB w1 = .ok (true, w2) ∧
      (w2.hand .handB).TwoHandsGraspedObject = some 2 ∧
      (w2.hand .handB).OneHandGraspedObject = none ∧
      (w2.hand .handB).bMovementMimickingHand = false ∧
      (w2.hand .handA).TwoHandsGraspedObject = none ∧
      (w2.hand .handA).OneHandGraspedObject = none ∧
      (w2.hand .handA).bMovementMimickingHand = true ∧
      (w2.actors 2).attachParent = some .handB ∧
      (w2.actors 2).simulatingPhysics = false ∧
      (w2.hand .handA).bGenerateOverlapEvents = false ∧
      (w2.hand .handB).bGenerateOverlapEvents = false)
    ∧ (∃ w1 w2,
      TryTwoHandsFixationGrasp .handB
          (endWorld (sampleLevel >>= run [.enter .handA 2, .enter .handB 2])) = .ok (false, w1) ∧
      TryTwoHandsFixationGrasp .handA w1 = .ok (true, w2) ∧
      (w2.hand .handA).TwoHandsGraspedObject = some 2 ∧
      (w2.hand .handA).OneHandGraspedObject = none ∧
      (w2.hand .handA).bMovementMimickingHand = false ∧
      (w2.hand .handB).TwoHandsGraspedObject = none ∧
      (w2.hand .handB).OneHandGraspedObject = none ∧
      (w2.hand .handB).bMovementMimickingHand = true ∧
      (w2.actors 2).attachParent = some .handA ∧
      (w2.actors 2).simulatingPhysics = false ∧
      (w2.hand .handB).bGenerateOverlapEvents = false ∧
      (w2.hand .handA).bGenerateOverlapEvents = false) :=
  ⟨by decide, by decide,
   C7_two_hands_complete_grasp
     (endWorld (sampleLevel >>= run [.enter .handA 2, .enter .handB 2])) .handA .handB 2
     (by decide) (by decide) (by decide) (by decide) (by decide) (by decide) (by decide)
     (by decide) (by decide) (by decide) (by decide) (by decide) (by decide),
   C7_two_hands_complete_grasp
     (endWorld (sampleLevel >>= run [.enter .handA 2, .enter .handB 2])) .handB .handA 2
     (by decide) (by decide) (by decide) (by decide) (by decide) (by decide) (by decide)
     (by decide) (by decide) (by decide) (by decide) (by decide) (by decide)⟩

/-! ## Overlap notifications (C8, C9) -/

/-- C8 as stated fails: hand A has crate `2` as its two-hand candidate; crate
`3`, a different actor classified `TWO_HANDS_GRASPABLE`, enters the grasp area;
afterwards the candidate is crate `3`, not crate `2`. -/
theorem C8_second_candidate_replaces_first :
    (sampleLevel >>= run [.enter .handA 2]).map
        (fun w => ((w.hand .handA).TwoHandsGraspableObject,
          CheckObjectGraspableType (w.hand .handA) (w.actors 3)))
      = .ok (some 2, .TWO_HANDS_GRASPABLE)
    ∧ (sampleLevel >>= run [.enter .handA 2, .enter .handA 3]).map
        (fun w => (w.hand .handA).TwoHandsGraspableObject)
      = .ok (some 3)
    ∧ (sampleLevel >>= run [.enter .handA 2, .enter .handA 3]).map
        (fun w => (w.hand .handA).TwoHandsGraspableObject)
      ≠ .ok (some 2) := by
  decide

/-- C8, amended: for a hand that already has a two-hand candidate `a`, a
begin-overlap notification for a different actor `b` classified
`TWO_HANDS_GRASPABLE` makes `b` the two-hand candidate; `a` is no longer the
candidate. -/
theorem C8_begin_overlap_sets_candidate (w : World) (H : HandRef) (a b : ActorRef)
    (ha : (w.hand H).TwoHandsGraspableObject = some a) (hab : b ≠ a)
    (hcls : CheckObjectGraspableType (w.hand H) (w.actors b) = .TWO_HANDS_GRASPABLE) :
    ((OnFixationGraspAreaBeginOverlap H b w).hand H).TwoHandsGraspableObject = some b
    ∧ ((OnFixationGraspAreaBeginOverlap H b w).hand H).TwoHandsGraspableObject
        ≠ (w.hand H).TwoHandsGraspableObject := by
  have hs : (w.actors b).isStaticMeshActor = true := by
    by_contra hc
    simp [CheckObjectGraspableType, hc] at hcls
  simp [OnFixationGraspAreaBeginOverlap, hcls, CastStaticMeshActor, hs, ha, hab]

/-- C8, amended, at hand A with candidate crate `2` when crate `3` enters. -/
theorem C8_begin_overlap_sets_candidate_witness :
    ((OnFixationGraspAreaBeginOverlap .handA 3
        (endWorld (sampleLevel >>= run [.enter .handA 2]))).hand .handA).TwoHandsGraspableObject
      = some 3
    ∧ ((OnFixationGraspAreaBeginOverlap .handA 3
        (endWorld (sampleLevel >>= run [.enter .handA 2]))).hand .handA).TwoHandsGraspableObject
      ≠ ((endWorld (sampleLevel >>= run [.enter .handA 2])).hand .handA).TwoHandsGraspableObject :=
  C8_begin_overlap_sets_candidate (endWorld (sampleLevel >>= run [.enter .handA 2])) .handA 2 3
    (by decide) (by decide) (by decide)

/-- C9, evaluated on the code where it fails: hand A has the mug `1` among its
one-hand candidates, crate `2` as its two-hand candidate, and its readiness flag
set.  The end-overlap notification for the mug, which is not the two-hand
candidate, removes the mug from the one-hand candidates and also clears the
two-hand candidate and the readiness flag: `OnFixationGraspAreaEndOverlap`
tests that a two-hand candidate is set, not that it is the leaving actor. -/
theorem C9_end_overlap_of_other_actor_clears_candidate :
    (sampleLevel >>= run [.enter .handA 1, .enter .handA 2, .enter .handB 2,
        .tryTwoHands .handA]).map
      (fun w => ((w.hand .handA).OneHandGraspableObjects, (w.hand .handA).TwoHandsGraspableObject,
        (w.hand .handA).bReadyForTwoHandsGrasp, (w.hand .handA).bGenerateOverlapEvents))
      = .ok ([some 1], some 2, true, true)
    ∧ (sampleLevel >>= run [.enter .handA 1, .enter .handA 2, .enter .handB 2,
        .tryTwoHands .handA, .exit .handA 1]).map
      (fun w => ((w.hand .handA).OneHandGraspableObjects, (w.hand .handA).TwoHandsGraspableObject,
        (w.hand .handA).bReadyForTwoHandsGrasp))
      = .ok ([], none, false) := by
  decide

/-! ## Releasing a two-hand grasp (C10) -/

/-- C10 as stated fails: after both hands completed a two-hand grasp of the
crate (hand A holds it, hand B mimics) and hand A called
`DetachFixationGrasp`, the readiness flag of hand B is still set. -/
theorem C10_mimicking_hand_stays_ready :
    (sampleLevel >>= run [.enter .handA 2, .enter .handB 2, .tryTwoHands .handB,
        .tryTwoHands .handA]).map
      (fun w => ((w.hand .handA).TwoHandsGraspedObject, (w.hand .handB).bMovementMimickingHand,
        (w.hand .handB).bReadyForTwoHandsGrasp))
      = .ok (some 2, true, true)
    ∧ (sampleLevel >>= run [.enter .handA 2, .enter .handB 2, .tryTwoHands .handB,
        .tryTwoHands .handA] >>= DetachFixationGrasp .handA).map
      (fun r => (r.1, (r.2.hand .handA).bReadyForTwoHandsGrasp,
        (r.2.hand .handB).bReadyForTwoHandsGrasp))
      = .ok (true, false, true) := by
  decide

/-- A state that 18 calls reach from the paired constructed hands, every overlap
notification delivered while the grasp area of the notified hand generates
overlaps: hand B has crate `2` as its two-hand grasped object and is at the same
time a movement-mimicking hand, hand A mimics and holds nothing.  The trace
passes through one-hand grasps started during a two-hand grasp, as in C1.  In
this state `DetachFixationGrasp` on hand B returns `true`, releases the crate
and stops the mimicking of hand A, and leaves hand B mimicking. -/
theorem detach_keeps_mimicking_flag_of_holder :
    (sampleLevel >>= run [.enter .handA 1, .enter .handB 1, .enter .handA 3, .enter .handB 3,
        .tryTwoHands .handA, .tryTwoHands .handB, .tryOneHand .handA, .detach .handA,
        .tryOneHand .handB, .detach .handB, .enter .handA 2, .enter .handB 2,
        .tryTwoHands .handB, .tryTwoHands .handA, .detach .handB, .enter .handA 2,
        .enter .handB 2, .tryTwoHands .handB]).map
      (fun w => ((w.hand .handB).OneHandGraspedObject, (w.hand .handB).TwoHandsGraspedObject,
        (w.hand .handB).bMovementMimickingHand, (w.hand .handB).OtherHand,
        (w.hand .handA).OneHandGraspedObject, (w.hand .handA).TwoHandsGraspedObject,
        (w.hand .handA).bMovementMimickingHand))
      = .ok (none, some 2, true, some .handA, none, none, true)
    ∧ (sampleLevel >>= run [.enter .handA 1, .enter .handB 1, .enter .handA 3, .enter .handB 3,
        .tryTwoHands .handA, .tryTwoHands .handB, .tryOneHand .handA, .detach .handA,
        .tryOneHand .handB, .detach .handB, .enter .handA 2, .enter .handB 2,
        .tryTwoHands .handB, .tryTwoHands .handA, .detach .handB, .enter .handA 2,
        .enter .handB 2, .tryTwoHands .handB] >>= DetachFixationGrasp .handB).map
      (fun r => (r.1, (r.2.hand .handB).TwoHandsGraspedObject,
        (r.2.hand .handB).bMovementMimickingHand, (r.2.hand .handA).bMovementMimickingHand))
      = .ok (true, none, true, false) :=
  ⟨rfl, rfl⟩

/-- C10, amended: `H` has `o` as its two-hand grasped object, has no one-hand
grasped object and is not itself a movement-mimicking hand; `P`, its other
hand, is the movement-mimicking hand and holds nothing.  `DetachFixationGrasp`
on `H` returns `true`; afterwards neither hand holds an object, neither is
mimicking, overlap generation is on for both grasp areas, `o` is detached,
simulates physics and has the velocity of `H`.  The readiness flag of `H` is
cleared; the readiness flag of `P` is left as it was. -/
theorem C10_two_hand_release (w : World) (H P : HandRef) (o : ActorRef)
    (hne : H ≠ P)
    (hHP : (w.hand H).OtherHand = some P)
    (hH1 : (w.hand H).OneHandGraspedObject = none)
    (hH2 : (w.hand H).TwoHandsGraspedObject = some o)
    (hHm : (w.hand H).bMovementMimickingHand = false)
    (hP1 : (w.hand P).OneHandGraspedObject = none)
    (hP2 : (w.hand P).TwoHandsGraspedObject = none)
    (hPm : (w.hand P).bMovementMimickingHand = true)
    (hcomp : (w.actors o).hasStaticMeshComponent = true) :
    ∃ w1, DetachFixationGrasp H w = .ok (true, w1) ∧
      (w1.hand H).OneHandGraspedObject = none ∧
      (w1.hand H).TwoHandsGraspedObject = none ∧
      (w1.hand H).bMovementMimickingHand = false ∧
      (w1.hand H).bReadyForTwoHandsGrasp = false ∧
      (w1.hand H).bGenerateOverlapEvents = true ∧
      (w1.hand P).OneHandGraspedObject = none ∧
      (w1.hand P).TwoHandsGraspedObject = none ∧
      (w1.hand P).bMovementMimickingHand = false ∧
      (w1.hand P).bReadyForTwoHandsGrasp = (w.hand P).bReadyForTwoHandsGrasp ∧
      (w1.hand P).bGenerateOverlapEvents = true ∧
      (w1.actors o).attachParent = none ∧
      (w1.actors o).simulatingPhysics = true ∧
      (w1.actors o).linearVelocity = (w.hand H).Velocity := by
  have hPH' : P ≠ H := fun e => hne e.symm
  simp [DetachFixationGrasp, DetachTwoHandFixationGraspFromOther, DetachFromComponent,
    SetSimulatePhysics, SetPhysicsLinearVelocity,
    hand_setHand_ne _ _ _ _ hne, hand_setHand_ne _ _ _ _ hPH',
    hHP, hH1, hH2, hHm, hP1, hP2, hPm, hcomp, bind, Except.bind]

/-- C10, amended, on the completed two-hand grasp of the crate by the sample
hands: hand A holds it and moves with velocity `(1, 2, 3)`, hand B mimics. -/
theorem C10_two_hand_release_witness :
    ∃ w1, DetachFixationGrasp .handA
        (endWorld (sampleLevel >>= run [.enter .handA 2, .enter .handB 2, .tryTwoHands .handB,
          .tryTwoHands .handA])) = .ok (true, w1) ∧
      (w1.hand .handA).OneHandGraspedObject = none ∧
      (w1.hand .handA).TwoHandsGraspedObject = none ∧
      (w1.hand .handA).bMovementMimickingHand = false ∧
      (w1.hand .handA).bReadyForTwoHandsGrasp = false ∧
      (w1.hand .handA).bGenerateOverlapEvents = true ∧
      (w1.hand .handB).OneHandGraspedObject = none ∧
      (w1.hand .handB).TwoHandsGraspedObject = none ∧
      (w1.hand .handB).bMovementMimickingHand = false ∧
      (w1.hand .handB).bReadyForTwoHandsGrasp = true ∧
      (w1.hand .handB).bGenerateOverlapEvents = true ∧
      (w1.actors 2).attachParent = none ∧
      (w1.actors 2).simulatingPhysics = true ∧
      (w1.actors 2).linearVelocity = ⟨1, 2, 3⟩ :=
  C10_two_hand_release
    (endWorld (sampleLevel >>= run [.enter .handA 2, .enter .handB 2, .tryTwoHands .handB,
      .tryTwoHands .handA])) .handA .handB 2
    (by decide) (by decide) (by decide) (by decide) (by decide) (by decide) (by decide)
    (by decide) (by decide)

/-! ## What a call leaves of the pairing of a hand -/

theorem hand_SetSimulatePhysics {o : ActorRef} {b : Bool} {w w1 : World}
    (h : SetSimulatePhysics o b w = .ok w1) (r : HandRef) : w1.hand r = w.hand r := by
  unfold SetSimulatePhysics at h
  split at h
  · cases h; simp
  · cases h

theorem hand_DetachFromComponent {o : ActorRef} {w w1 : World}
    (h : DetachFromComponent o w = .ok w1) (r : HandRef) : w1.hand r = w.hand r := by
  unfold DetachFromComponent at h
  split at h
  · cases h; simp
  · cases h

theorem hand_SetPhysicsLinearVelocity {o : ActorRef} {v : FVector} {w w1 : World}
    (h : SetPhysicsLinearVelocity o v w = .ok w1) (r : HandRef) : w1.hand r = w.hand r := by
  unfold SetPhysicsLinearVelocity at h
  split at h
  · cases h; simp
  · cases h

@[simp] theorem hand_AttachTo (o : ActorRef) (h : HandRef) (w : World) (r : HandRef) :
    (AttachTo o h w).hand r = w.hand r := by
  simp [AttachTo]

theorem hand_StartGraspEvent {self : HandRef} {o : ActorRef} {w w1 : World} {b : Bool}
    (h : StartGraspEvent self o w = .ok (b, w1)) (r : HandRef) : w1.hand r = w.hand r := by
  unfold StartGraspEvent at h
  split at h
  · simp only at h
    split at h
    · cases h; cases r <;> rfl
    · cases h
  · cases h; rfl

theorem hand_FinishGraspEvent {self : HandRef} {o : ActorRef} {w w1 : World} {b : Bool}
    (h : FinishGraspEvent self o w = .ok (b, w1)) (r : HandRef) : w1.hand r = w.hand r := by
  unfold FinishGraspEvent at h
  split at h
  · split at h
    · cases h; simp
    · cases h
  · cases h; rfl

/-- When two steps in sequence return, the first returned and the second
returned on its result. -/
theorem bind_ok {α β : Type} {first : Except Fault α} {second : α → Except Fault β} {res : β} :
    first >>= second = Except.ok res →
      ∃ mid, first = Except.ok mid ∧ second mid = Except.ok res := by
  intro hret
  rcases first with _ | mid
  · cases hret
  · exact ⟨mid, rfl, hret⟩

theorem pairing_DetachTwoHandFixationGraspFromOther {self : HandRef} {w w1 : World} {b : Bool}
    (h : DetachTwoHandFixationGraspFromOther self w = .ok (b, w1)) (H : HandRef) :
    (w1.hand H).OtherHand = (w.hand H).OtherHand ∧
    (w1.hand H).bReadyForTwoHandsGrasp = (w.hand H).bReadyForTwoHandsGrasp := by
  unfold DetachTwoHandFixationGraspFromOther at h
  simp only [hand_setHand_same] at h
  split at h
  · obtain ⟨w2, h2, h⟩ := bind_ok h
    obtain ⟨w3, h3, h⟩ := bind_ok h
    obtain ⟨w4, h4, h⟩ := bind_ok h
    cases h
    have e2 := hand_DetachFromComponent h2
    have e3 := hand_SetSimulatePhysics h3
    have e4 := hand_SetPhysicsLinearVelocity h4
    by_cases e : self = H
    · subst e
      simp [e4, e3, e2]
    · simp [hand_setHand_ne _ _ _ _ e, e4, e3, e2]
  · split at h
    · cases h
      by_cases e : self = H
      · subst e; simp
      · simp [hand_setHand_ne _ _ _ _ e]
    · cases h
      by_cases e : self = H
      · subst e; simp
      · simp [hand_setHand_ne _ _ _ _ e]

theorem pairing_TwoHandsFixationGraspFromOther {self : HandRef} {w w1 : World}
    (h : TwoHandsFixationGraspFromOther self w = .ok w1) (H : HandRef) :
    (w1.hand H).OtherHand = (w.hand H).OtherHand ∧
    (w1.hand H).bReadyForTwoHandsGrasp = (w.hand H).bReadyForTwoHandsGrasp := by
  unfold TwoHandsFixationGraspFromOther at h
  simp only at h
  split at h
  · cases h
  · cases h
    by_cases e : self = H
    · subst e; simp
    · simp [hand_setHand_ne _ _ _ _ e]

theorem pairing_TryOneHandFixationGrasp {self : HandRef} {w w1 : World} {b : Bool}
    (h : TryOneHandFixationGrasp self w = .ok (b, w1)) (H : HandRef) :
    (w1.hand H).OtherHand = (w.hand H).OtherHand ∧
    (w1.hand H).bReadyForTwoHandsGrasp = (w.hand H).bReadyForTwoHandsGrasp := by
  unfold TryOneHandFixationGrasp at h
  simp only at h
  split at h
  · split at h
    · cases h
    · obtain ⟨w2, h2, h⟩ := bind_ok h
      obtain ⟨⟨r5, w5⟩, h5, h⟩ := bind_ok h
      cases h
      have e2 := hand_SetSimulatePhysics h2
      have e5 := hand_StartGraspEvent h5
      by_cases e : self = H
      · subst e
        simp [e5, e2]
      · simp [e5, hand_setHand_ne _ _ _ _ e, e2]
  · cases h
    exact ⟨rfl, rfl⟩

theorem pairing_OnFixationGraspAreaBeginOverlap (self : HandRef) (o : ActorRef) (w : World)
    (H : HandRef) :
    ((OnFixationGraspAreaBeginOverlap self o w).hand H).OtherHand = (w.hand H).OtherHand ∧
    ((OnFixationGraspAreaBeginOverlap self o w).hand H).bReadyForTwoHandsGrasp
      = (w.hand H).bReadyForTwoHandsGrasp := by
  unfold OnFixationGraspAreaBeginOverlap
  simp only
  split
  · by_cases e : self = H
    · subst e; simp
    · simp [hand_setHand_ne _ _ _ _ e]
  · by_cases e : self = H
    · subst e; simp
    · simp [hand_setHand_ne _ _ _ _ e]
  · exact ⟨rfl, rfl⟩

theorem pairing_OnFixationGraspAreaEndOverlap (self : HandRef) (o : ActorRef) (w : World)
    (H : HandRef) :
    ((OnFixationGraspAreaEndOverlap self o w).hand H).OtherHand = (w.hand H).OtherHand ∧
    ((w.hand H).bReadyForTwoHandsGrasp = false →
      ((OnFixationGraspAreaEndOverlap self o w).hand H).bReadyForTwoHandsGrasp = false) := by
  unfold OnFixationGraspAreaEndOverlap
  simp only
  split
  · by_cases e : self = H
    · subst e; simp
    · simp [hand_setHand_ne _ _ _ _ e]
  · by_cases e : self = H
    · subst e; simp
    · simp [hand_setHand_ne _ _ _ _ e]

theorem pairing_DetachFixationGrasp {self : HandRef} {w w1 : World} {b : Bool}
    (h : DetachFixationGrasp self w = .ok (b, w1)) (H : HandRef) :
    (w1.hand H).OtherHand = (w.hand H).OtherHand ∧
    ((w.hand H).bReadyForTwoHandsGrasp = false → (w1.hand H).bReadyForTwoHandsGrasp = false) := by
  unfold DetachFixationGrasp at h
  simp only [hand_setHand_same] at h
  have base : ∀ w2 : World, (∀ r, w2.hand r = (w.setHand self { w.hand self with
        bReadyForTwoHandsGrasp := false
        bGenerateOverlapEvents := true
        bGraspHeld := false }).hand r) →
      (w2.hand H).OtherHand = (w.hand H).OtherHand ∧
      ((w.hand H).bReadyForTwoHandsGrasp = false → (w2.hand H).bReadyForTwoHandsGrasp = false) := by
    intro w2 e
    by_cases c : self = H
    · subst c; simp [e]
    · simp [e, hand_setHand_ne _ _ _ _ c]
  split at h
  · obtain ⟨⟨r2, w2⟩, h2, h⟩ := bind_ok h
    obtain ⟨w3, h3, h⟩ := bind_ok h
    obtain ⟨w4, h4, h⟩ := bind_ok h
    obtain ⟨w5, h5, h⟩ := bind_ok h
    cases h
    have e2 := hand_FinishGraspEvent h2
    have e3 := hand_DetachFromComponent h3
    have e4 := hand_SetSimulatePhysics h4
    have e5 := hand_SetPhysicsLinearVelocity h5
    have k := base w5 (fun r => by rw [e5, e4, e3, e2])
    by_cases c : self = H
    · subst c
      simp [e5, e4, e3, e2]
    · simpa [hand_setHand_ne _ _ _ _ c] using k
  · split at h
    · obtain ⟨w2, h2, h⟩ := bind_ok h
      obtain ⟨w3, h3, h⟩ := bind_ok h
      obtain ⟨w4, h4, h⟩ := bind_ok h
      obtain ⟨⟨r6, w6⟩, h6, h⟩ := bind_ok h
      cases h
      have e2 := hand_DetachFromComponent h2
      have e3 := hand_SetSimulatePhysics h3
      have e4 := hand_SetPhysicsLinearVelocity h4
      have e6 := pairing_DetachTwoHandFixationGraspFromOther h6 H
      have k := base w4 (fun r => by rw [e4, e3, e2])
      rw [e6.1, e6.2]
      by_cases c : self = H
      · subst c
        simp [e4, e3, e2]
      · simpa [hand_setHand_ne _ _ _ _ c] using k
    · split at h
      · obtain ⟨⟨r3, w3⟩, h3, h⟩ := bind_ok h
        cases h
        have e3 := pairing_DetachTwoHandFixationGraspFromOther h3 H
        rw [e3.1, e3.2]
        by_cases c : self = H
        · subst c; simp
        · simp [hand_setHand_ne _ _ _ _ c]
      · cases h
        exact base _ (fun _ => rfl)

theorem pairing_TryTwoHandsFixationGrasp {self : HandRef} {w w1 : World} {b : Bool}
    (h : TryTwoHandsFixationGrasp self w = .ok (b, w1)) (H : HandRef) :
    (w1.hand H).OtherHand = (w.hand H).OtherHand ∧
    ((w.hand H).OtherHand = none →
      (w1.hand H).bReadyForTwoHandsGrasp = (w.hand H).bReadyForTwoHandsGrasp) := by
  by_cases c0 : ((w.hand self).OtherHand.isSome && (w.hand self).TwoHandsGraspableObject.isSome) = true
  · simp only [TryTwoHandsFixationGrasp, c0, if_true] at h
    have base : ∀ w3 : World, (∀ r, w3.hand r = (w.setHand self { w.hand self with
          bReadyForTwoHandsGrasp := true }).hand r) →
        (w3.hand H).OtherHand = (w.hand H).OtherHand ∧
        ((w.hand H).OtherHand = none →
          (w3.hand H).bReadyForTwoHandsGrasp = (w.hand H).bReadyForTwoHandsGrasp) := by
      intro w3 e
      by_cases c : self = H
      · subst c
        rw [e, hand_setHand_same]
        refine ⟨rfl, fun hn => ?_⟩
        simp [hn] at c0
      · simp [e, hand_setHand_ne _ _ _ _ c]
    split at h
    · cases h
    · split at h
      · split at h
        · split at h
          · obtain ⟨w3, h3, h⟩ := bind_ok h
            obtain ⟨w6, h6, h⟩ := bind_ok h
            cases h
            have e3 := hand_SetSimulatePhysics h3
            have e6 := pairing_TwoHandsFixationGraspFromOther h6 H
            rw [e6.1, e6.2]
            by_cases c : self = H
            · subst c
              refine ⟨by simp [e3], fun hn => ?_⟩
              simp [hn] at c0
            · simp [hand_setHand_ne _ _ _ _ c, e3]
          · cases h
            exact base _ (fun _ => rfl)
        · cases h
          exact base _ (fun _ => rfl)
      · cases h
        exact base _ (fun _ => rfl)
  · simp only [TryTwoHandsFixationGrasp, c0, Bool.false_eq_true, if_false] at h
    have base : ∀ w3 : World, (∀ r, w3.hand r = (w.setHand self (w.hand self)).hand r) →
        (w3.hand H).OtherHand = (w.hand H).OtherHand ∧
        ((w.hand H).OtherHand = none →
          (w3.hand H).bReadyForTwoHandsGrasp = (w.hand H).bReadyForTwoHandsGrasp) := by
      intro w3 e
      by_cases c : self = H
      · subst c
        rw [e, hand_setHand_same]
        exact ⟨rfl, fun _ => rfl⟩
      · simp [e, hand_setHand_ne _ _ _ _ c]
    split at h
    · split at h
      · cases h
      · split at h
        · split at h
          · split at h
            · obtain ⟨w3, h3, h⟩ := bind_ok h
              obtain ⟨w6, h6, h⟩ := bind_ok h
              cases h
              have e3 := hand_SetSimulatePhysics h3
              have e6 := pairing_TwoHandsFixationGraspFromOther h6 H
              rw [e6.1, e6.2]
              by_cases c : self = H
              · subst c
                simp [e3]
              · simp [hand_setHand_ne _ _ _ _ c, e3]
            · cases h
              exact base _ (fun _ => rfl)
          · cases h
            exact base _ (fun _ => rfl)
        · cases h
          exact base _ (fun _ => rfl)
    · cases h
      exact base _ (fun _ => rfl)

theorem pairing_step {a : Action} {w w1 : World} {b : Bool}
    (h : step a w = .ok (b, w1)) (H : HandRef)
    (hother : (w.hand H).OtherHand = none)
    (hready : (w.hand H).bReadyForTwoHandsGrasp = false) :
    (w1.hand H).OtherHand = none ∧ (w1.hand H).bReadyForTwoHandsGrasp = false := by
  cases a with
  | enter s o =>
    cases h
    have k := pairing_OnFixationGraspAreaBeginOverlap s o w H
    exact ⟨k.1.trans hother, k.2.trans hready⟩
  | exit s o =>
    cases h
    have k := pairing_OnFixationGraspAreaEndOverlap s o w H
    exact ⟨k.1.trans hother, k.2 hready⟩
  | tryOneHand s =>
    have k := pairing_TryOneHandFixationGrasp h H
    exact ⟨k.1.trans hother, k.2.trans hready⟩
  | tryTwoHands s =>
    have k := pairing_TryTwoHandsFixationGrasp h H
    exact ⟨k.1.trans hother, (k.2 hother).trans hready⟩
  | detach s =>
    have k := pairing_DetachFixationGrasp h H
    exact ⟨k.1.trans hother, k.2 hready⟩

theorem pairing_reachable {w0 w : World} (hreach : Reachable w0 w) (H : HandRef)
    (hother : (w0.hand H).OtherHand = none)
    (hready : (w0.hand H).bReadyForTwoHandsGrasp = false) :
    (w.hand H).OtherHand = none ∧ (w.hand H).bReadyForTwoHandsGrasp = false := by
  induction hreach with
  | init => exact ⟨hother, hready⟩
  | next a r _ hs ih => exact pairing_step hs H ih.1 ih.2

theorem setHand_hand_self (w : World) (r : HandRef) : w.setHand r (w.hand r) = w := by
  cases r <;> rfl

theorem reachable_run {w0 : World} (as : List Action) :
    ∀ {w w1 : World}, Reachable w0 w → run as w = .ok w1 → Reachable w0 w1 := by
  induction as with
  | nil =>
    intro w w1 hw h
    cases h
    exact hw
  | cons a rest ih =>
    intro w w1 hw h
    obtain ⟨⟨r, w2⟩, h2, h⟩ := bind_ok h
    exact ih (Reachable.next a r hw h2) h

/-! ## A hand without a paired hand (C11) -/

/-- C11: hand `H` starts with no paired hand and its readiness flag clear, as
the constructor leaves it, and `SetOtherHand` is never called.  In every state
reached through begin-overlap and end-overlap notifications and
`TryOneHandFixationGrasp`, `TryTwoHandsFixationGrasp` and `DetachFixationGrasp`
calls, `TryTwoHandsFixationGrasp` on `H` returns `false` without a fault (the
null `OtherHand` is not dereferenced) and leaves the whole world, hence the
readiness flag, the candidates and the held objects of `H`, as it was. -/
theorem C11_try_two_hands_without_other_hand (w0 w : World) (H : HandRef)
    (hother : (w0.hand H).OtherHand = none)
    (hready : (w0.hand H).bReadyForTwoHandsGrasp = false)
    (hreach : Reachable w0 w) :
    TryTwoHandsFixationGrasp H w = .ok (false, w) := by
  obtain ⟨ho, hr⟩ := pairing_reachable hreach H hother hready
  simp [TryTwoHandsFixationGrasp, ho, hr, setHand_hand_self]

/-- C11 on the sample level with `SetOtherHand` never called: after the calls of
`soloTrace` hand A has crate `3` as its two-hand candidate, and
`TryTwoHandsFixationGrasp` returns `false` and changes nothing. -/
theorem C11_try_two_hands_without_other_hand_witness :
    (sampleSolo.hand .handA).OtherHand = none
    ∧ (sampleSolo.hand .handA).bReadyForTwoHandsGrasp = false
    ∧ Reachable sampleSolo
        (endWorld (run soloTrace sampleSolo))
    ∧ ((endWorld (run soloTrace sampleSolo)).hand
            .handA).TwoHandsGraspableObject = some 3
    ∧ TryTwoHandsFixationGrasp .handA
        (endWorld (run soloTrace sampleSolo))
      = .ok (false,
        endWorld (run soloTrace sampleSolo)) :=
  ⟨rfl, rfl, reachable_run soloTrace Reachable.init rfl, by decide,
   C11_try_two_hands_without_other_hand sampleSolo _ .handA rfl rfl
     (reachable_run soloTrace Reachable.init rfl)⟩

/-! ## Semantic logging (C12, C13) -/

/-- C12, evaluated on the code where it fails: the level has no runtime
manager, so after `BeginPlay` the manager pointer of hand A is null.  With the
untagged mug as its one-hand candidate, `TryOneHandFixationGrasp` on the idle
hand returns `true`, holds the mug, disables its physics and attaches it.  With
the tagged bowl as its candidate, the same call reaches
`SemLogRuntimeManager->StartEvent` in `StartGraspEvent`, which dereferences the
null manager: the call does not complete. -/
theorem C12_tagged_grasp_without_manager_faults :
    (unloggedLevel >>= run [.enter .handA 1] >>= TryOneHandFixationGrasp .handA).map
      (fun r => (r.1, (r.2.hand .handA).OneHandGraspedObject, (r.2.actors 1).simulatingPhysics,
        (r.2.actors 1).attachParent))
      = .ok (true, some 1, false, some .handA)
    ∧ (unloggedLevel >>= run [.enter .handA 5]).map
      (fun w => ((w.hand .handA).SemLogRuntimeManager, (w.hand .handA).OneHandGraspedObject,
        (w.hand .handA).TwoHandsGraspedObject, (w.hand .handA).bMovementMimickingHand,
        (w.hand .handA).OneHandGraspableObjects, (w.actors 5).semLogTag))
      = .ok (false, none, none, false, [some 5], some ("Bowl3", "9w2Y"))
    ∧ (unloggedLevel >>= run [.enter .handA 5] >>= TryOneHandFixationGrasp .handA).map
      (fun r => r.1)
      = .error .nullDereference :=
  ⟨rfl, rfl, rfl⟩

/-- C13, evaluated on the code where it fails: the level has a runtime manager
and hand A grasps the tagged bowl.  `TryOneHandFixationGrasp` starts a grasp
event on the manager, but `StartGraspEvent` keeps the node in a local variable,
so the member `GraspEvent` stays invalid.  The `DetachFixationGrasp` that
follows returns `true` and releases the bowl, and `FinishGraspEvent` finds no
valid event: no `FinishEvent` reaches the manager.  For the untagged mug no
event is started and none is finished. -/
theorem C13_started_event_is_never_finished :
    (loggedLevel >>= run [.enter .handA 5, .tryOneHand .handA]).map
      (fun w => ((w.hand .handA).SemLogRuntimeManager, (w.hand .handA).OneHandGraspedObject,
        w.cmds, (w.hand .handA).GraspEvent))
      = .ok (true, some 5,
          [.SetSimulatePhysics 5 false, .AttachTo 5 .handA,
           .StartEvent ⟨⟨"log", "GraspingSomething", "S1dz"⟩, "Grasp-LeftHand_BRmZ-Bowl3_9w2Y",
             ⟨"log", "LeftHand", "BRmZ"⟩, ⟨"log", "Bowl3", "9w2Y"⟩⟩],
          none)
    ∧ (loggedLevel >>= run [.enter .handA 5, .tryOneHand .handA]
        >>= DetachFixationGrasp .handA).map
      (fun r => (r.1, (r.2.hand .handA).OneHandGraspedObject, r.2.cmds.drop 3))
      = .ok (true, none,
          [.DetachFromComponent 5, .SetSimulatePhysics 5 true,
           .SetPhysicsLinearVelocity 5 ⟨1, 2, 3⟩])
    ∧ (loggedLevel >>= run [.enter .handA 1, .tryOneHand .handA]
        >>= DetachFixationGrasp .handA).map
      (fun r => (r.1, r.2.cmds))
      = .ok (true,
          [.SetSimulatePhysics 1 false, .AttachTo 1 .handA, .DetachFromComponent 1,
           .SetSimulatePhysics 1 true, .SetPhysicsLinearVelocity 1 ⟨1, 2, 3⟩]) :=
  ⟨rfl, rfl, rfl⟩

end UMCInteraction
